import Mathlib

/-!
Verification of the marlin verilation runtime against its specification.

The definitions below are shallow embeddings of the Rust sources:
  - src/verilator/src/lib.rs   (runtime, build pipeline, FFI shim generator)
  - src/verilator/src/ffi_names.rs (symbol-name table used by model bindings)
  - src/verilator/src/dynamic.rs (dynamic models: read and pin)
File-system and process effects (mtimes, directory contents, the external
simulator, the dynamic loader) are made explicit parameters or abstract
state; everything else follows the source line by line.
-/

deriving instance DecidableEq for Except

namespace Marlin

/-- Port directions, from src/verilator/src/lib.rs (enum PortDirection). -/
inductive PortDirection where
  | Input
  | Output
  | Inout
deriving DecidableEq, Repr

/-- One declared port: the tuple (name, msb, lsb, direction) used by
VerilatedModel::ports() and build_ffi in src/verilator/src/lib.rs. -/
structure Port where
  name : String
  msb : Nat
  lsb : Nat
  direction : PortDirection
deriving DecidableEq, Repr

/-- Port width, computed in build_ffi as (msb - lsb + 1) on usize.
We assume the spec invariant msb >= lsb (Nat subtraction truncates). -/
def Port.width (p : Port) : Nat := p.msb - p.lsb + 1

/-! Symbol names as emitted by build_ffi (src/verilator/src/lib.rs,
lines 325-419): the format strings in the writeln! calls. -/

/-- Constructor symbol emitted by build_ffi: ffi_new_V{top}. -/
def newSymbol (top : String) : String := "ffi_new_V" ++ top

/-- Evaluator symbol emitted by build_ffi: ffi_V{top}_eval. -/
def evalSymbol (top : String) : String := "ffi_V" ++ top ++ "_eval"

/-- Destructor symbol emitted by build_ffi: ffi_delete_V{top}. -/
def deleteSymbol (top : String) : String := "ffi_delete_V" ++ top

/-- Setter symbol for a port: ffi_V{top}_pin_{port}. -/
def pinSymbol (top port : String) : String :=
  "ffi_V" ++ top ++ "_pin_" ++ port

/-- Getter symbol for a port: ffi_V{top}_read_{port}. -/
def readSymbol (top port : String) : String :=
  "ffi_V" ++ top ++ "_read_" ++ port

/-! The consumer-side name table from src/verilator/src/ffi_names.rs,
whose doc comment states that it ensures all FFI function references are
consistent. Each definition mirrors one format! call. -/

namespace FfiNames

/-- ffi_names::new_top (src/verilator/src/ffi_names.rs line 23): note the
string literal in the source begins with a space character. -/
def new_top (top_module : String) : String := " ffi_new_V" ++ top_module

/-- ffi_names::top_eval. -/
def top_eval (top_module : String) : String :=
  "ffi_V" ++ top_module ++ "_eval"

/-- ffi_names::delete_top. -/
def delete_top (top_module : String) : String :=
  "ffi_delete_V" ++ top_module

/-- ffi_names::pin_port. -/
def pin_port (top_module port : String) : String :=
  "ffi_V" ++ top_module ++ "_pin_" ++ port

/-- ffi_names::read_port. -/
def read_port (top_module port : String) : String :=
  "ffi_V" ++ top_module ++ "_read_" ++ port

end FfiNames

/-- Macro-name stem chosen from the port direction in build_ffi
(VL_IN, VL_OUT, VL_INOUT). -/
def vlDirName : PortDirection → String
  | .Input => "VL_IN"
  | .Output => "VL_OUT"
  | .Inout => "VL_INOUT"

/-- Width-class suffix chosen in build_ffi (the macro_suffix if-chain,
src/verilator/src/lib.rs lines 362-372): "8", "16", "" (32), "64", "W". -/
def vlWidthClass (width : Nat) : String :=
  if width ≤ 8 then "8"
  else if width ≤ 16 then "16"
  else if width ≤ 32 then ""
  else if width ≤ 64 then "64"
  else "W"

/-- Word count for wide ports: (width + 31) / 32 in build_ffi; the same
quantity is width.div_ceil(32) in dynamic.rs (words are 32 bits). -/
def wideWordCount (width : Nat) : Nat := (width + 31) / 32

/-- Error raised by build_ffi. The source raises a message built from the
port and top-module names: "Port ... was larger than 64 bits wide". -/
inductive BuildFfiError where
  | portTooWide (port top : String)
deriving DecidableEq, Repr

/-- Symbols build_ffi emits for a single port (src/verilator/src/lib.rs
lines 391-415): a setter for Input and Inout, a getter for Output and
Inout. -/
def buildFfiPortSymbols (top : String) (p : Port) : List String :=
  (match p.direction with
    | .Input | .Inout => [pinSymbol top p.name]
    | .Output => []) ++
  (match p.direction with
    | .Output | .Inout => [readSymbol top p.name]
    | .Input => [])

/-- The port loop of build_ffi (src/verilator/src/lib.rs lines 348-416):
each port of width above 64 aborts the generator with an error before
anything is emitted for it. -/
def buildFfiLoop (top : String) : List Port → Except BuildFfiError (List String)
  | [] => .ok []
  | p :: rest =>
    if p.width > 64 then
      .error (.portTooWide p.name top)
    else
      match buildFfiLoop top rest with
      | .error e => .error e
      | .ok syms => .ok (buildFfiPortSymbols top p ++ syms)

/-- build_ffi (src/verilator/src/lib.rs lines 317-425), abstracted to the
set of extern "C" symbols the generated translation unit defines: the
constructor, evaluator and destructor, then the per-port accessors. -/
def buildFfi (top : String) (ports : List Port) :
    Except BuildFfiError (List String) :=
  match buildFfiLoop top ports with
  | .error e => .error e
  | .ok syms => .ok ([newSymbol top, evalSymbol top, deleteSymbol top] ++ syms)

/-! Rebuild decisions, from needs_verilator_rebuild and build
(src/verilator/src/lib.rs lines 427-473 and 510-520). Directory state is
passed explicitly: whether obj_dir exists, the modification times of the
regular files inside it, and the modification times of the registered
source files (the source propagates an error when a source file has no
readable metadata; that error path is outside this model). -/

/-- Maximum of a list of modification times, as Iterator::max: none on an
empty iterator. -/
def maxMtime : List Nat → Option Nat
  | [] => none
  | t :: rest =>
    match maxMtime rest with
    | none => some t
    | some m => some (max t m)

/-- needs_verilator_rebuild (src/verilator/src/lib.rs lines 427-473):
true when obj_dir is absent; false when obj_dir holds no files; otherwise
true exactly when some source file is strictly newer than the newest file
in obj_dir. -/
def needsVerilatorRebuild (objDirExists : Bool)
    (objFileMtimes srcMtimes : List Nat) : Bool :=
  if !objDirExists then
    true
  else
    match maxMtime objFileMtimes with
    | none => false
    | some lastBuilt => srcMtimes.any (fun lastEdited => lastBuilt < lastEdited)

/-- The rebuild decision made by build (src/verilator/src/lib.rs lines
510-520): the verilator invocation is skipped exactly when force_rebuild
is off, needs_verilator_rebuild is false and the DPI stage was not
rebuilt. -/
def verilatorRebuildPerformed (force dpiRebuilt objDirExists : Bool)
    (objFileMtimes srcMtimes : List Nat) : Bool :=
  !(!force &&
    (!needsVerilatorRebuild objDirExists objFileMtimes srcMtimes && !dpiRebuilt))

/-- DpiFunction(c_name, c_function_code, rust_function_code), from
src/verilator/src/lib.rs line 71. -/
structure DpiFunction where
  c_name : String
  c_code : String
  rust_code : String
deriving DecidableEq, Repr

/-- The current_file_code string of build_dpi_if_needed: the Rust sides of
the DPI functions joined by newlines (src/verilator/src/lib.rs lines
246-251). -/
def dpiRustFileCode (fns : List DpiFunction) : String :=
  String.intercalate "\n" (fns.map (fun f => f.rust_code))

/-- The c_file_code string of build_dpi_if_needed: the fixed include
header followed by the C sides joined by newlines (src/verilator/src/lib.rs
lines 253-261). -/
def dpiCFileCode (fns : List DpiFunction) : String :=
  "#include \"verilated.h\"\n#include <stdint.h>\n" ++
    String.intercalate "\n" (fns.map (fun f => f.c_code))

/-- The rebuild decision of build_dpi_if_needed (src/verilator/src/lib.rs
lines 263-272): the stage is skipped exactly when the stored dpi.rs file
is readable and equals the current Rust-side text; the C wrapper text is
not consulted. storedDpiFile is the content of dpi.rs from the previous
build, none when unreadable or absent. -/
def dpiRebuilt (storedDpiFile : Option String) (fns : List DpiFunction) : Bool :=
  match storedDpiFile with
  | some stored => !(stored == dpiRustFileCode fns)
  | none => true

/-! The runtime and its library cache (VerilatorRuntime::create_model,
src/verilator/src/lib.rs lines 158-224). The external build and the
dynamic loader are abstracted: every build allocates a fresh library
handle, numbered by how many builds the runtime has performed. The
canonicalize operation of the file system (Utf8Path::canonicalize_utf8,
which fails on paths that do not resolve) is an explicit parameter. -/

/-- Errors of create_model before any build is attempted. -/
inductive CreateModelError where
  | escapedModuleName
  | sourceFileNotRegistered
deriving DecidableEq, Repr

/-- Runtime state: the registered source files, the library cache keyed by
the (top, path) string pair exactly as in the libraries HashMap of
VerilatorRuntime, and the number of builds performed so far. -/
structure RuntimeState where
  sourceFiles : List String
  libraries : List ((String × String) × Nat)
  buildCount : Nat
deriving DecidableEq, Repr

/-- Lookup in the library cache (HashMap::get / Entry). -/
def lookupLibrary : List ((String × String) × Nat) → String × String → Option Nat
  | [], _ => none
  | entry :: rest, key =>
    if entry.1 = key then some entry.2 else lookupLibrary rest key

/-- The source-file validation of create_model (src/verilator/src/lib.rs
lines 166-174): some registered source file and the model source path both
canonicalize successfully and to the same path. -/
def sourceRegistered (canon : String → Option String)
    (sourceFiles : List String) (srcPath : String) : Bool :=
  sourceFiles.any fun sourceFile =>
    match canon sourceFile, canon srcPath with
    | some lhs, some rhs => lhs == rhs
    | _, _ => false

/-- VerilatorRuntime::create_model (src/verilator/src/lib.rs lines
158-224): reject escaped module names; require some registered source
file to canonicalize to the same path as the model source path; then
consult the cache under the verbatim (name, source_path) pair, building
and inserting only on a vacant entry. Returns the library handle backing
the new model. -/
def createModel (canon : String → Option String) (name srcPath : String)
    (rt : RuntimeState) : Except CreateModelError (Nat × RuntimeState) :=
  if name.data.any (fun c => c == '\\' || c == ' ') then
    .error .escapedModuleName
  else if !sourceRegistered canon rt.sourceFiles srcPath then
    .error .sourceFileNotRegistered
  else
    match lookupLibrary rt.libraries (name, srcPath) with
    | some lib => .ok (lib, rt)
    | none =>
      let lib := rt.buildCount
      .ok (lib,
        { rt with
          libraries := rt.libraries ++ [((name, srcPath), lib)],
          buildCount := rt.buildCount + 1 })

/-! The dynamic model (src/verilator/src/dynamic.rs). -/

/-- Modelled from the spec: compute_approx_width_from_wdata_word_count is
called by VerilatorValue::width in src/verilator/src/dynamic.rs but its
definition is not among the provided sources; per the spec, wide values
are arrays of 32-bit words (word 0 is the least significant word), so a
count of n words carries 32 * n bits. -/
def computeApproxWidthFromWdataWordCount (wordCount : Nat) : Nat :=
  32 * wordCount

/-- VerilatorValue (src/verilator/src/dynamic.rs lines 20-28). Scalar
payloads are the unsigned values of the Rust types u8, u16, u32, u64; wide
payloads are lists of 32-bit words. -/
inductive VerilatorValue where
  | NotDriven
  | CData (value : Nat)
  | SData (value : Nat)
  | IData (value : Nat)
  | QData (value : Nat)
  | WDataInP (words : List Nat)
  | WDataOutP (words : List Nat)
deriving DecidableEq, Repr

/-- VerilatorValue::width (src/verilator/src/dynamic.rs lines 31-46). -/
def VerilatorValue.width : VerilatorValue → Nat
  | .NotDriven => 0
  | .CData _ => 8
  | .SData _ => 16
  | .IData _ => 32
  | .QData _ => 64
  | .WDataInP words => computeApproxWidthFromWdataWordCount words.length
  | .WDataOutP words => computeApproxWidthFromWdataWordCount words.length

/-- DynamicPortInfo (src/verilator/src/dynamic.rs lines 118-122). -/
structure DynamicPortInfo where
  width : Nat
  direction : PortDirection
deriving DecidableEq, Repr

/-- An opened library as the dynamic model sees it: which symbols it
defines (libloading::Library::get succeeds exactly on these), and what its
read accessors return when called. scalarRead gives the raw value a scalar
getter returns; wideRead gives the word array behind the pointer a wide
getter returns, none standing for a null pointer. -/
structure LibraryModel where
  symbols : List String
  scalarRead : String → Nat
  wideRead : String → Option (List Nat)

/-- DynamicVerilatedModel (src/verilator/src/dynamic.rs lines 126-133):
the port map, the top-module name and the backing library. -/
structure DynamicVerilatedModel where
  ports : List (String × DynamicPortInfo)
  name : String
  library : LibraryModel

/-- DynamicVerilatedModelError (src/verilator/src/dynamic.rs lines
143-173). The source attaches an Option of a loader error to NoSuchPort;
here the Bool records whether the error came from a failed symbol lookup
(true) or from a missing entry in the port map (false). -/
inductive DynamicVerilatedModelError where
  | NoSuchPort (top_module port : String) (fromSymbolLookup : Bool)
  | InvalidPortWidth (top_module port : String)
      (width attempted_lower attempted_higher : Nat)
  | InvalidPortDirection (top_module port : String)
      (direction attempted_direction : PortDirection)
deriving DecidableEq, Repr

/-- Lookup in the port map (HashMap::get on DynamicVerilatedModel.ports). -/
def lookupPort : List (String × DynamicPortInfo) → String → Option DynamicPortInfo
  | [], _ => none
  | entry :: rest, port =>
    if entry.1 = port then some entry.2 else lookupPort rest port

/-- usize::MAX on the 64-bit targets the crate supports. -/
def usizeMax : Nat := 2 ^ 64 - 1

/-- AsDynamicVerilatedModel::read for DynamicVerilatedModel
(src/verilator/src/dynamic.rs lines 176-268): port-map lookup, then the
direction gate, then dispatch on the port width; each branch resolves
ffi_V{name}_read_{port} and calls it. In the wide branch a null pointer
yields NotDriven and otherwise width.div_ceil(32) words are copied out of
the returned array (the pointer-validity assertions of the source are
memory-level and have no content here). -/
def DynamicVerilatedModel.read (m : DynamicVerilatedModel) (port : String) :
    Except DynamicVerilatedModelError VerilatorValue :=
  match lookupPort m.ports port with
  | none => .error (.NoSuchPort m.name port false)
  | some info =>
    if info.direction = .Output ∨ info.direction = .Inout then
      let sym := readSymbol m.name port
      if sym ∈ m.library.symbols then
        if info.width ≤ 8 then
          .ok (.CData (m.library.scalarRead sym % 2 ^ 8))
        else if info.width ≤ 16 then
          .ok (.SData (m.library.scalarRead sym % 2 ^ 16))
        else if info.width ≤ 32 then
          .ok (.IData (m.library.scalarRead sym % 2 ^ 32))
        else if info.width ≤ 64 then
          .ok (.QData (m.library.scalarRead sym % 2 ^ 64))
        else
          match m.library.wideRead sym with
          | none => .ok .NotDriven
          | some words =>
            .ok (.WDataOutP
              ((List.range (wideWordCount info.width)).map
                (fun i => words.getD i 0)))
      else .error (.NoSuchPort m.name port true)
    else .error (.InvalidPortDirection m.name port info.direction .Output)

/-- Outcome of a pin call: success, a returned error, or a panic. -/
inductive PinOutcome where
  | ok
  | err (e : DynamicVerilatedModelError)
  | panicked (msg : String)
deriving DecidableEq, Repr

/-- A performed invocation of an FFI setter: which symbol was called and
with which value. -/
structure SetterCall where
  symbol : String
  value : VerilatorValue
deriving DecidableEq, Repr

/-- The pin_value! macro body (src/verilator/src/dynamic.rs lines
275-329), in its exact order: resolve ffi_V{name}_pin_{port} (failure is
NoSuchPort), look the port up in the port map (failure is NoSuchPort),
reject when the port width exceeds attempted_higher, reject directions
other than Input and Inout, and only then invoke the setter. The second
component lists the setter invocations performed. -/
def pinValue (m : DynamicVerilatedModel) (port : String)
    (value : VerilatorValue) (attempted_lower attempted_higher : Nat) :
    PinOutcome × List SetterCall :=
  let sym := pinSymbol m.name port
  if sym ∈ m.library.symbols then
    match lookupPort m.ports port with
    | none => (.err (.NoSuchPort m.name port false), [])
    | some info =>
      if attempted_higher < info.width then
        (.err (.InvalidPortWidth m.name port info.width
          attempted_lower attempted_higher), [])
      else if info.direction = .Input ∨ info.direction = .Inout then
        (.ok, [⟨sym, value⟩])
      else
        (.err (.InvalidPortDirection m.name port info.direction .Input), [])
  else (.err (.NoSuchPort m.name port true), [])

/-- AsDynamicVerilatedModel::pin for DynamicVerilatedModel
(src/verilator/src/dynamic.rs lines 270-363): dispatch on the value
variant with the per-variant width ranges of the source; NotDriven and
WDataOutP panic with the message of the source. -/
def DynamicVerilatedModel.pin (m : DynamicVerilatedModel) (port : String)
    (value : VerilatorValue) : PinOutcome × List SetterCall :=
  match value with
  | .NotDriven => (.panicked "Cannot pin NotDriven", [])
  | .CData c => pinValue m port (.CData c) 0 8
  | .SData s => pinValue m port (.SData s) 9 16
  | .IData i => pinValue m port (.IData i) 17 32
  | .QData q => pinValue m port (.QData q) 33 64
  | .WDataInP ws => pinValue m port (.WDataInP ws) 65 usizeMax
  | .WDataOutP _ =>
    (.panicked "output ports should have already been caught", [])

/-- True exactly on the panic outcome. -/
def PinOutcome.isPanic : PinOutcome → Bool
  | .panicked _ => true
  | _ => false

/-! Concrete instances used to evaluate the definitions. -/

/-- Symbol list produced by build_ffi, or empty when the generator fails. -/
def shimSymbolsOrEmpty (top : String) (ports : List Port) : List String :=
  match buildFfi top ports with
  | .ok syms => syms
  | .error _ => []

/-- A canonicalize function for a file system in which the relative
spellings "a.sv" and "./a.sv" both resolve to the absolute path
"/abs/a.sv" and every other path fails to resolve. -/
def canonEx : String → Option String
  | "a.sv" => some "/abs/a.sv"
  | "./a.sv" => some "/abs/a.sv"
  | _ => none

/-- A dynamic model over top module "top" with a single 8-bit Output port
"o", backed by the library the shim generator emits for exactly that port
list. -/
def outOnlyModel : DynamicVerilatedModel where
  ports := [("o", ⟨8, .Output⟩)]
  name := "top"
  library :=
    { symbols := shimSymbolsOrEmpty "top" [⟨"o", 7, 0, .Output⟩]
      scalarRead := fun _ => 0
      wideRead := fun _ => none }

/-- A dynamic model over top module "top" with a single 4-bit Input port
"i", backed by the library the shim generator emits for exactly that port
list. -/
def inputOnlyModel : DynamicVerilatedModel where
  ports := [("i", ⟨4, .Input⟩)]
  name := "top"
  library :=
    { symbols := shimSymbolsOrEmpty "top" [⟨"i", 3, 0, .Input⟩]
      scalarRead := fun _ => 0
      wideRead := fun _ => none }

/-- A dynamic model over top module "top" with a single 128-bit Input port
"p" whose setter symbol is available in the library (as the spec requires
of a wide-capable shim). -/
def wideInModel : DynamicVerilatedModel where
  ports := [("p", ⟨128, .Input⟩)]
  name := "top"
  library :=
    { symbols := [pinSymbol "top" "p"]
      scalarRead := fun _ => 0
      wideRead := fun _ => none }

/-- A dynamic model with no ports and an empty library. -/
def trivialModel : DynamicVerilatedModel where
  ports := []
  name := "top"
  library :=
    { symbols := []
      scalarRead := fun _ => 0
      wideRead := fun _ => none }

/-! Helper lemmas. -/

/-- Appending a fresh cache entry makes its key resolvable. -/
theorem lookupLibrary_append (libs : List ((String × String) × Nat))
    (key : String × String) (lib : Nat)
    (h : lookupLibrary libs key = none) :
    lookupLibrary (libs ++ [(key, lib)]) key = some lib := by
  induction libs with
  | nil => simp [lookupLibrary]
  | cons entry rest ih =>
    by_cases hk : entry.1 = key
    · simp [lookupLibrary, hk] at h
    · simp only [lookupLibrary, List.cons_append, hk, if_neg hk] at h ⊢
      exact ih h

/-- pin_value never panics: every return site of the macro body is a
normal return. -/
theorem pinValue_not_panic (m : DynamicVerilatedModel) (port : String)
    (value : VerilatorValue) (lo hi : Nat) :
    ((pinValue m port value lo hi).1).isPanic = false := by
  by_cases hs : pinSymbol m.name port ∈ m.library.symbols
  · cases hp : lookupPort m.ports port with
    | none => simp [pinValue, hs, hp, PinOutcome.isPanic]
    | some info =>
      by_cases hw : hi < info.width
      · simp [pinValue, hs, hp, hw, PinOutcome.isPanic]
      · by_cases hd : info.direction = .Input ∨ info.direction = .Inout
        · simp [pinValue, hs, hp, hw, hd, PinOutcome.isPanic]
        · simp [pinValue, hs, hp, hw, hd, PinOutcome.isPanic]
  · simp [pinValue, hs, PinOutcome.isPanic]

/-- pin_value either performs no setter call or succeeds. -/
theorem pinValue_calls (m : DynamicVerilatedModel) (port : String)
    (value : VerilatorValue) (lo hi : Nat) :
    (pinValue m port value lo hi).2 = [] ∨
      (pinValue m port value lo hi).1 = .ok := by
  by_cases hs : pinSymbol m.name port ∈ m.library.symbols
  · cases hp : lookupPort m.ports port with
    | none => simp [pinValue, hs, hp]
    | some info =>
      by_cases hw : hi < info.width
      · simp [pinValue, hs, hp, hw]
      · by_cases hd : info.direction = .Input ∨ info.direction = .Inout
        · simp [pinValue, hs, hp, hw, hd]
        · simp [pinValue, hs, hp, hw, hd]
  · simp [pinValue, hs]

/-- When pin_value returns an error, it performed no setter call. -/
theorem pinValue_err_no_call (m : DynamicVerilatedModel) (port : String)
    (value : VerilatorValue) (lo hi : Nat) (e : DynamicVerilatedModelError)
    (h : (pinValue m port value lo hi).1 = .err e) :
    (pinValue m port value lo hi).2 = [] := by
  rcases pinValue_calls m port value lo hi with hc | hc
  · exact hc
  · rw [hc] at h
    exact PinOutcome.noConfusion h

/-! Claim theorems. -/

/-- C1: the claim says build_ffi classifies a port of width above 64 as
class W and emits a getter/setter over (width + 31) / 32 words of 32 bits
rather than failing the build. The width classifier and the word count in
the source do behave as claimed, but build_ffi aborts with an error on any
such port before emitting anything, shown here on the 65-bit port
[64:0] wide_input of top module "main". -/
theorem c1_build_ffi_rejects_wide_port :
    buildFfi "main" [⟨"wide_input", 64, 0, .Input⟩] =
      .error (.portTooWide "wide_input" "main") ∧
    Port.width ⟨"wide_input", 64, 0, .Input⟩ = 65 ∧
    vlWidthClass 65 = "W" ∧
    wideWordCount 65 = 3 := by
  refine ⟨rfl, rfl, ?_, rfl⟩
  decide

/-- C2 counterexample: with a file system in which "a.sv" and "./a.sv"
canonicalize to the same file, a runtime that has already built module "m"
from the spelling "a.sv" builds again when asked for the spelling
"./a.sv": the cache is keyed by the verbatim strings, so the second call
misses the cache and the build count reaches 2, refuting the claim that
both calls hit one cache entry with at most one build. -/
theorem c2_counterexample :
    canonEx "a.sv" = canonEx "./a.sv" ∧
    createModel canonEx "m" "a.sv" ⟨["a.sv"], [], 0⟩ =
      .ok (0, ⟨["a.sv"], [(("m", "a.sv"), 0)], 1⟩) ∧
    createModel canonEx "m" "./a.sv" ⟨["a.sv"], [(("m", "a.sv"), 0)], 1⟩ =
      .ok (1, ⟨["a.sv"],
        [(("m", "a.sv"), 0), (("m", "./a.sv"), 1)], 2⟩) := by
  refine ⟨rfl, ?_, ?_⟩ <;> decide

/-- C5 counterexample: a DPI function whose Rust side is unchanged but
whose C side changed from "int c_old" to "int c_new" does not trigger a
DPI rebuild, because only the stored dpi.rs text is compared; yet the
concatenated DPI source text including the C wrapper differs between the
two versions, refuting the claim that any difference in the C wrapper text
forces a rebuild. -/
theorem c5_counterexample :
    dpiRebuilt (some "rust code") [⟨"f", "int c_new", "rust code"⟩] = false ∧
    dpiRustFileCode [⟨"f", "int c_old", "rust code"⟩] =
      dpiRustFileCode [⟨"f", "int c_new", "rust code"⟩] ∧
    dpiCFileCode [⟨"f", "int c_old", "rust code"⟩] ≠
      dpiCFileCode [⟨"f", "int c_new", "rust code"⟩] := by
  refine ⟨rfl, rfl, ?_⟩
  decide

/-- C6 counterexample: on a model whose library was generated by build_ffi
for the single 8-bit Output port "o", pin returns NoSuchPort (the setter
symbol was never emitted for an Output port and the symbol lookup precedes
the direction check), not the InvalidPortDirection error the claim
requires. -/
theorem c6_counterexample :
    outOnlyModel.pin "o" (.CData 1) =
      (.err (.NoSuchPort "top" "o" true), []) ∧
    PinOutcome.err (.NoSuchPort "top" "o" true) ≠
      .err (.InvalidPortDirection "top" "o" .Output .Input) := by
  refine ⟨?_, ?_⟩ <;> decide

/-- C7 counterexample: on a 128-bit Input port, pin accepts a wide value
of only 2 words and invokes the setter, although (128 + 31) / 32 = 4, so
the word-count validation the claim describes does not exist. -/
theorem c7_counterexample :
    wideInModel.pin "p" (.WDataInP [1, 2]) =
      (.ok, [⟨pinSymbol "top" "p", .WDataInP [1, 2]⟩]) ∧
    wideWordCount 128 ≠ 2 := by
  refine ⟨?_, ?_⟩ <;> decide

/-- C8 counterexample: pin panics (unwinds) on the NotDriven sentinel and
on an owned wide-output value, refuting the claim that pin never panics
for any VerilatorValue variant it can be given. -/
theorem c8_counterexample :
    trivialModel.pin "p" .NotDriven = (.panicked "Cannot pin NotDriven", []) ∧
    trivialModel.pin "p" (.WDataOutP [0]) =
      (.panicked "output ports should have already been caught", []) := by
  refine ⟨rfl, rfl⟩

/-- C9: the claim says the constructor symbol the model bindings resolve
equals "ffi_new_V" followed by the module name with no extra characters
and agrees with the emitter. The name table in ffi_names.rs produces a
string with a leading space, " ffi_new_V" followed by the module name,
while build_ffi emits ffi_new_V followed by the module name: evaluated at
module "main", consumer and emitter disagree, although every other
accessor name in the table matches the emitter. -/
theorem c9_new_top_mismatch :
    FfiNames.new_top "main" = " ffi_new_Vmain" ∧
    newSymbol "main" = "ffi_new_Vmain" ∧
    FfiNames.new_top "main" ≠ newSymbol "main" ∧
    (∀ top : String, FfiNames.top_eval top = evalSymbol top) ∧
    (∀ top : String, FfiNames.delete_top top = deleteSymbol top) ∧
    (∀ top port : String, FfiNames.pin_port top port = pinSymbol top port) ∧
    (∀ top port : String, FfiNames.read_port top port = readSymbol top port) := by
  refine ⟨rfl, rfl, ?_, fun _ => rfl, fun _ => rfl,
    fun _ _ => rfl, fun _ _ => rfl⟩
  decide

/-- C2 amended: the cache key of create_model is the verbatim
(name, source_path) string pair, with no canonicalization. When validation
passes, a call whose exact key is cached returns the cached library with
the runtime unchanged and no build, and a call whose exact key is absent
performs a build and inserts under the verbatim key, regardless of what
other spellings of the same file are cached. -/
theorem c2_amended_verbatim_cache_key (canon : String → Option String)
    (name p : String) (rt : RuntimeState)
    (hname : name.data.any (fun c => c == '\\' || c == ' ') = false)
    (hsrc : sourceRegistered canon rt.sourceFiles p = true) :
    (∀ lib, lookupLibrary rt.libraries (name, p) = some lib →
        createModel canon name p rt = .ok (lib, rt)) ∧
    (lookupLibrary rt.libraries (name, p) = none →
        createModel canon name p rt =
          .ok (rt.buildCount,
            { rt with
              libraries := rt.libraries ++ [((name, p), rt.buildCount)],
              buildCount := rt.buildCount + 1 })) := by
  constructor
  · intro lib hl
    simp [createModel, hname, hsrc, hl]
  · intro hl
    simp [createModel, hname, hsrc, hl]

/-- C2 amended witness: a cached verbatim key is returned without a
build. -/
theorem c2_amended_witness :
    createModel canonEx "m" "a.sv" ⟨["a.sv"], [(("m", "a.sv"), 7)], 3⟩ =
      .ok (7, ⟨["a.sv"], [(("m", "a.sv"), 7)], 3⟩) :=
  (c2_amended_verbatim_cache_key canonEx "m" "a.sv"
    ⟨["a.sv"], [(("m", "a.sv"), 7)], 3⟩ (by decide) (by decide)).1 7 (by decide)

/-- C3: a second create_model call with the same (name, source_path) key
leaves the runtime state unchanged (no build, no insertion, no eviction)
and returns the same library handle as the first call. -/
theorem c3_second_create_model_returns_cached_library
    (canon : String → Option String) (name p : String)
    (rt rt1 : RuntimeState) (lib : Nat)
    (h : createModel canon name p rt = .ok (lib, rt1)) :
    createModel canon name p rt1 = .ok (lib, rt1) := by
  unfold createModel at h ⊢
  split at h
  next hname => exact Except.noConfusion h
  next hname =>
    split at h
    next hsrc => exact Except.noConfusion h
    next hsrc =>
      cases heq : lookupLibrary rt.libraries (name, p) with
      | some l =>
        rw [heq] at h
        simp only [Except.ok.injEq, Prod.mk.injEq] at h
        obtain ⟨hl, hr⟩ := h
        subst hl
        subst hr
        simp [hname, hsrc, heq]
      | none =>
        rw [heq] at h
        simp only [Except.ok.injEq, Prod.mk.injEq] at h
        obtain ⟨hl, hr⟩ := h
        subst hl
        subst hr
        simp [hname, hsrc, lookupLibrary_append _ _ _ heq]

/-- C3 witness: on a runtime that already built module "m" from "a.sv",
a repeated call returns the cached handle and the unchanged state. -/
theorem c3_witness :
    createModel canonEx "m" "a.sv" ⟨["a.sv"], [(("m", "a.sv"), 0)], 1⟩ =
      .ok (0, ⟨["a.sv"], [(("m", "a.sv"), 0)], 1⟩) :=
  c3_second_create_model_returns_cached_library canonEx "m" "a.sv"
    ⟨["a.sv"], [], 0⟩ ⟨["a.sv"], [(("m", "a.sv"), 0)], 1⟩ 0 (by decide)

/-- C4: a verilator rebuild is performed exactly when some registered
source file is newer than the newest file in obj_dir, or obj_dir is
absent, or the DPI stage was rebuilt, or force_rebuild is set. -/
theorem c4_verilator_rebuild_iff (force dpiR objDirExists : Bool)
    (objFileMtimes srcMtimes : List Nat) :
    verilatorRebuildPerformed force dpiR objDirExists objFileMtimes srcMtimes
        = true ↔
      ((∃ lastBuilt, maxMtime objFileMtimes = some lastBuilt ∧
          ∃ t ∈ srcMtimes, lastBuilt < t) ∨
        objDirExists = false ∨ dpiR = true ∨ force = true) := by
  unfold verilatorRebuildPerformed needsVerilatorRebuild
  cases objDirExists with
  | false => simp
  | true =>
    cases hm : maxMtime objFileMtimes with
    | none => cases force <;> cases dpiR <;> simp [hm]
    | some lastBuilt =>
      cases force <;> cases dpiR <;> simp [hm, List.any_eq_true]

/-- C5 amended: the DPI stage is rebuilt exactly when the stored dpi.rs
text is absent or differs from the concatenated Rust-side DPI text; the
decision is insensitive to the C wrapper text. -/
theorem c5_amended_dpi_rebuild_rust_only (stored : Option String)
    (fns fns2 : List DpiFunction)
    (h : fns.map (fun f => f.rust_code) = fns2.map (fun f => f.rust_code)) :
    dpiRebuilt stored fns = dpiRebuilt stored fns2 ∧
      (dpiRebuilt stored fns = false ↔
        stored = some (dpiRustFileCode fns)) := by
  have hc : dpiRustFileCode fns = dpiRustFileCode fns2 := by
    unfold dpiRustFileCode
    rw [h]
  constructor
  · cases stored with
    | none => simp [dpiRebuilt]
    | some s => simp [dpiRebuilt, hc]
  · cases stored with
    | none => simp [dpiRebuilt]
    | some s => simp [dpiRebuilt]

/-- C5 amended witness: editing only the C side of a DPI function leaves
the rebuild decision unchanged. -/
theorem c5_amended_witness :
    dpiRebuilt (some "rust code") [⟨"f", "int c_old", "rust code"⟩] =
      dpiRebuilt (some "rust code") [⟨"f", "int c_new", "rust code"⟩] :=
  (c5_amended_dpi_rebuild_rust_only (some "rust code")
    [⟨"f", "int c_old", "rust code"⟩] [⟨"f", "int c_new", "rust code"⟩]
    (by decide)).1

/-- C6 amended: read on an Input port returns InvalidPortDirection, but
pin on an Output port fails at the setter-symbol lookup, which precedes
the direction check: with the symbol absent (the shim generator emits
setters only for Input and Inout ports) pin returns NoSuchPort, and
InvalidPortDirection is returned by pin only when the symbol resolves and
the width check passes. -/
theorem c6_amended_direction_enforcement (m : DynamicVerilatedModel)
    (port : String) :
    (∀ w, lookupPort m.ports port = some ⟨w, .Input⟩ →
        m.read port =
          .error (.InvalidPortDirection m.name port .Input .Output)) ∧
    (∀ v : VerilatorValue, v ≠ .NotDriven → (∀ ws, v ≠ .WDataOutP ws) →
        pinSymbol m.name port ∉ m.library.symbols →
        m.pin port v = (.err (.NoSuchPort m.name port true), [])) ∧
    (∀ w c, lookupPort m.ports port = some ⟨w, .Output⟩ →
        pinSymbol m.name port ∈ m.library.symbols → w ≤ 8 →
        m.pin port (.CData c) =
          (.err (.InvalidPortDirection m.name port .Output .Input), [])) ∧
    (∀ top pname msb lsb,
        buildFfiPortSymbols top ⟨pname, msb, lsb, .Output⟩ =
          [readSymbol top pname]) := by
  refine ⟨?_, ?_, ?_, ?_⟩
  · intro w hp
    simp [DynamicVerilatedModel.read, hp]
  · intro v hnd hwo hs
    cases v with
    | NotDriven => exact absurd rfl hnd
    | WDataOutP ws => exact absurd rfl (hwo ws)
    | CData c => simp [DynamicVerilatedModel.pin, pinValue, hs]
    | SData s => simp [DynamicVerilatedModel.pin, pinValue, hs]
    | IData i => simp [DynamicVerilatedModel.pin, pinValue, hs]
    | QData q => simp [DynamicVerilatedModel.pin, pinValue, hs]
    | WDataInP ws => simp [DynamicVerilatedModel.pin, pinValue, hs]
  · intro w c hp hs hw
    have hw' : ¬(8 < w) := by omega
    simp [DynamicVerilatedModel.pin, pinValue, hs, hp, hw']
  · intro top pname msb lsb
    rfl

/-- C6 amended witness: read on a declared Input port reports
InvalidPortDirection, while pin on a declared Output port of a
shim-generated library reports NoSuchPort. -/
theorem c6_amended_witness :
    inputOnlyModel.read "i" =
      .error (.InvalidPortDirection "top" "i" .Input .Output) ∧
    outOnlyModel.pin "o" (.SData 2) =
      (.err (.NoSuchPort "top" "o" true), []) :=
  ⟨(c6_amended_direction_enforcement inputOnlyModel "i").1 4 (by decide),
    (c6_amended_direction_enforcement outOnlyModel "o").2.1 (.SData 2)
      (fun hh => VerilatorValue.noConfusion hh)
      (fun _ hh => VerilatorValue.noConfusion hh)
      (by decide)⟩

/-- C7 amended: pin validates existence of the port (setter symbol, then
port map) and a per-variant width bound: with the setter symbol resolved,
a CData, SData, IData or QData value is rejected with InvalidPortWidth
exactly when the port is wider than 8, 16, 32 or 64 bits respectively;
a borrowed wide value (WDataInP) undergoes no width or word-count
validation at all and is pinned to any writable port. -/
theorem c7_amended_pin_validation (m : DynamicVerilatedModel)
    (port : String) :
    (∀ c, pinSymbol m.name port ∈ m.library.symbols →
        lookupPort m.ports port = none →
        m.pin port (.CData c) =
          (.err (.NoSuchPort m.name port false), [])) ∧
    (∀ c w d, pinSymbol m.name port ∈ m.library.symbols →
        lookupPort m.ports port = some ⟨w, d⟩ → 8 < w →
        m.pin port (.CData c) =
          (.err (.InvalidPortWidth m.name port w 0 8), [])) ∧
    (∀ s w d, pinSymbol m.name port ∈ m.library.symbols →
        lookupPort m.ports port = some ⟨w, d⟩ → 16 < w →
        m.pin port (.SData s) =
          (.err (.InvalidPortWidth m.name port w 9 16), [])) ∧
    (∀ i w d, pinSymbol m.name port ∈ m.library.symbols →
        lookupPort m.ports port = some ⟨w, d⟩ → 32 < w →
        m.pin port (.IData i) =
          (.err (.InvalidPortWidth m.name port w 17 32), [])) ∧
    (∀ q w d, pinSymbol m.name port ∈ m.library.symbols →
        lookupPort m.ports port = some ⟨w, d⟩ → 64 < w →
        m.pin port (.QData q) =
          (.err (.InvalidPortWidth m.name port w 33 64), [])) ∧
    (∀ ws w, pinSymbol m.name port ∈ m.library.symbols →
        lookupPort m.ports port = some ⟨w, .Input⟩ → w ≤ usizeMax →
        m.pin port (.WDataInP ws) =
          (.ok, [⟨pinSymbol m.name port, .WDataInP ws⟩])) := by
  refine ⟨?_, ?_, ?_, ?_, ?_, ?_⟩
  · intro c hs hp
    simp [DynamicVerilatedModel.pin, pinValue, hs, hp]
  · intro c w d hs hp hw
    simp [DynamicVerilatedModel.pin, pinValue, hs, hp, hw]
  · intro s w d hs hp hw
    simp [DynamicVerilatedModel.pin, pinValue, hs, hp, hw]
  · intro i w d hs hp hw
    simp [DynamicVerilatedModel.pin, pinValue, hs, hp, hw]
  · intro q w d hs hp hw
    simp [DynamicVerilatedModel.pin, pinValue, hs, hp, hw]
  · intro ws w hs hp hw
    have hw' : ¬(usizeMax < w) := not_lt.mpr hw
    simp [DynamicVerilatedModel.pin, pinValue, hs, hp, hw']

/-- C7 amended witness: a 4-word wide value is pinned to the 128-bit
Input port. -/
theorem c7_amended_witness :
    wideInModel.pin "p" (.WDataInP [1, 2, 3, 4]) =
      (.ok, [⟨pinSymbol "top" "p", .WDataInP [1, 2, 3, 4]⟩]) :=
  (c7_amended_pin_validation wideInModel "p").2.2.2.2.2 [1, 2, 3, 4] 128
    (by decide) (by decide) (by decide)

/-- C8 amended: pin reports failures by returned error values and never
unwinds, except on the NotDriven sentinel and on owned wide-output values
(WDataOutP), where it panics; for the five other value variants pin never
panics. -/
theorem c8_amended_pin_no_panic (m : DynamicVerilatedModel) (port : String)
    (v : VerilatorValue) (h1 : v ≠ .NotDriven)
    (h2 : ∀ ws, v ≠ .WDataOutP ws) :
    ((m.pin port v).1).isPanic = false := by
  cases v with
  | NotDriven => exact absurd rfl h1
  | WDataOutP ws => exact absurd rfl (h2 ws)
  | CData c => exact pinValue_not_panic m port (.CData c) 0 8
  | SData s => exact pinValue_not_panic m port (.SData s) 9 16
  | IData i => exact pinValue_not_panic m port (.IData i) 17 32
  | QData q => exact pinValue_not_panic m port (.QData q) 33 64
  | WDataInP ws => exact pinValue_not_panic m port (.WDataInP ws) 65 usizeMax

/-- C8 amended witness: pinning a scalar value does not panic. -/
theorem c8_amended_witness :
    ((trivialModel.pin "p" (.CData 0)).1).isPanic = false :=
  c8_amended_pin_no_panic trivialModel "p" (.CData 0)
    (fun hh => VerilatorValue.noConfusion hh)
    (fun _ hh => VerilatorValue.noConfusion hh)

/-- C10: whenever pin returns an error, no FFI setter was invoked, so the
simulator state is untouched by a failed pin. -/
theorem c10_pin_error_performs_no_setter_call (m : DynamicVerilatedModel)
    (port : String) (v : VerilatorValue) (e : DynamicVerilatedModelError)
    (h : (m.pin port v).1 = .err e) :
    (m.pin port v).2 = [] := by
  cases v with
  | NotDriven => rfl
  | WDataOutP ws => rfl
  | CData c => exact pinValue_err_no_call m port (.CData c) 0 8 e h
  | SData s => exact pinValue_err_no_call m port (.SData s) 9 16 e h
  | IData i => exact pinValue_err_no_call m port (.IData i) 17 32 e h
  | QData q => exact pinValue_err_no_call m port (.QData q) 33 64 e h
  | WDataInP ws =>
    exact pinValue_err_no_call m port (.WDataInP ws) 65 usizeMax e h

/-- C10 witness: the failed pin on the Output-only model performed no
setter call. -/
theorem c10_witness :
    (outOnlyModel.pin "o" (.CData 1)).2 = [] :=
  c10_pin_error_performs_no_setter_call outOnlyModel "o" (.CData 1)
    (.NoSuchPort "top" "o" true) (by decide)

end Marlin
